import Mathlib

/-!
Shallow embedding of the reservation-import scripts
(`procesar_reservas.py`, `procesar_reservas_old.py`, `limpiar_grillas_pisos.py`).

A spreadsheet tab is modelled as a `Sheet`: a function from (row, column)
to an optional cell value, together with the `max_row` bound the library
reports.  Cell values are either strings or natural numbers (the summary
writer stores numbers).  All operations below are direct translations of
the Python functions, field by field and line by line.
-/

namespace Recepcion

/-- A spreadsheet cell value: openpyxl stores strings or numbers here. -/
inductive CellVal where
  | str (s : String)
  | nat (n : Nat)
  deriving DecidableEq

/-- A worksheet: the reported `max_row` plus the cell contents
(`none` models an empty cell, i.e. Python `None`). -/
structure Sheet where
  maxRow : Nat
  cell : Nat → Nat → Option CellVal

/-- Model of `ws.cell(row, col, value)` of openpyxl: write one cell
(writing can extend `max_row`). -/
def setCell (s : Sheet) (r c : Nat) (v : Option CellVal) : Sheet :=
  ⟨max s.maxRow r, fun r' c' => if r' = r ∧ c' = c then v else s.cell r' c'⟩

/-- Python `str()` applied to a cell value (`str(None) = "None"`). -/
def pyStr : Option CellVal → String
  | none => "None"
  | some (CellVal.str s) => s
  | some (CellVal.nat n) => toString n

/-- One normalized record built by `read_csv_data` (the string-keyed dict
with keys HAB, IN, OUT, PAX, ID, N.º, NOMBRE, EDAD, VOUCHER, MAP,
ESTADO, BENEFICIO, SEDE, plus the derived PISO). -/
structure Registro where
  hab : String
  cIn : String
  cOut : String
  pax : String
  tipoDoc : String
  nroDoc : String
  nombre : String
  edad : String
  voucher : String
  mapServ : String
  estado : String
  beneficio : String
  sede : String
  piso : String
  deriving DecidableEq

/-- Whitespace test used by Python `str.strip()` (on this data's alphabet). -/
def isSpaceCh (c : Char) : Bool :=
  c == ' ' || c == '\t' || c == '\n' || c == '\r'

/-- Python `str.strip()`: drop whitespace from both ends. -/
def pyStrip (s : String) : String :=
  ⟨(((s.data.dropWhile isSpaceCh).reverse.dropWhile isSpaceCh).reverse)⟩

/-- Decimal digit test. -/
def isDigitCh (c : Char) : Bool := 48 ≤ c.toNat && c.toNat ≤ 57

/-- Value of a non-empty all-digit run (tail-recursive accumulator). -/
def digitsValAux : List Char → Nat → Option Nat
  | [], acc => some acc
  | c :: t, acc =>
      if isDigitCh c then digitsValAux t (acc * 10 + (c.toNat - 48)) else none

/-- Parse a non-empty digit list; `none` otherwise. -/
def digitsToNat? : List Char → Option Nat
  | [] => none
  | c :: t => digitsValAux (c :: t) 0

/-- Python `int(c)` on an already-stripped character list: optional sign,
then a non-empty digit run; `none` models the `ValueError` branch. -/
def pyIntChars : List Char → Option Int
  | '-' :: rest => (digitsToNat? rest).map (fun n => -(n : Int))
  | '+' :: rest => (digitsToNat? rest).map (fun n => (n : Int))
  | l => (digitsToNat? l).map (fun n => (n : Int))

/-- Python `int(str(x).strip())` on a string. -/
def pyInt (s : String) : Option Int := pyIntChars (pyStrip s).data

/-- Constant `PISO_RANGES` of `procesar_reservas.py`, in declaration order. -/
def PISO_RANGES : List (String × Int × Int) :=
  [("PISO_1", 101, 121), ("PISO_2", 222, 242), ("PISO_3", 343, 353)]

/-- Constant `PISO_SHEET_NAMES` of `procesar_reservas.py`. -/
def PISO_SHEET_NAMES : List (String × String) :=
  [("PISO_1", "PISO 1"), ("PISO_2", "PISO 2"), ("PISO_3", "PISO 3"),
   ("INGRESOS", "Ingresos 23 D MAYO")]

/-- Dictionary lookup `PISO_SHEET_NAMES[key]`. -/
def sheetNameOf (k : String) : String :=
  (((PISO_SHEET_NAMES.find? (fun e => e.1 == k)).map (fun e => e.2)).getD "")

/-- Function `get_piso_for_room` of `procesar_reservas.py`: parse the room number,
scan `PISO_RANGES` in declared order, return the sheet name of the first
range containing it; `none` on parse failure or no match. -/
def get_piso_for_room (room_number : String) : Option String :=
  match pyInt room_number with
  | none => none
  | some n =>
      match PISO_RANGES.find? (fun p => decide (p.2.1 ≤ n) && decide (n ≤ p.2.2)) with
      | some p => some (sheetNameOf p.1)
      | none => none

/-- Uppercase one character the way Python `str.upper()` does on the
alphabet this data uses (ASCII letters plus Spanish accented vowels). -/
def pyUpperChar (c : Char) : Char :=
  if 97 ≤ c.toNat ∧ c.toNat ≤ 122 then Char.ofNat (c.toNat - 32)
  else if c = 'á' then 'Á'
  else if c = 'é' then 'É'
  else if c = 'í' then 'Í'
  else if c = 'ó' then 'Ó'
  else if c = 'ú' then 'Ú'
  else if c = 'ñ' then 'Ñ'
  else if c = 'ü' then 'Ü'
  else c

/-- Python `s.upper()` (restricted to the alphabet above). -/
def pyUpper (s : String) : String := ⟨s.data.map pyUpperChar⟩

/-- Character-list version of `List.isPrefixOf`. -/
def chStarts : List Char → List Char → Bool
  | [], _ => true
  | _ :: _, [] => false
  | a :: as, b :: bs => a == b && chStarts as bs

/-- Python substring test `needle in hay`, on character lists. -/
def chSub (needle : List Char) : List Char → Bool
  | [] => needle.isEmpty
  | c :: t => chStarts needle (c :: t) || chSub needle t

/-- Python `needle in hay` on strings. -/
def strIn (needle hay : String) : Bool := chSub needle.toList hay.toList

/-- Constant `MAP_KEYWORDS` of `procesar_reservas.py` (a 3-element set literal). -/
def MAP_KEYWORDS : List String := ["MEDIA PENSION", "MEDIA PENSIÓN", "ALL INCLUSIVE"]

/-- The per-record test of the `total_map` loop:
`any(keyword in str(registro['MAP']).upper() for keyword in MAP_KEYWORDS)`. -/
def esMapRecord (r : Registro) : Bool :=
  MAP_KEYWORDS.any (fun k => strIn k (pyUpper r.mapServ))

/-- The `total_map` counting loop of `procesar_reservas` (lines 159–166). -/
def total_map (rs : List Registro) : Nat := rs.countP esMapRecord

/-- Python `set.add`: modelled on a duplicate-free list. -/
def setAdd (s : List String) (x : String) : List String :=
  if x ∈ s then s else s ++ [x]

/-- One loop iteration of `read_csv_data` (lines 96–121): resolve the
floor; on success record the row (with `PISO` set) and add the raw
room string to the set of unique rooms, otherwise skip the row. -/
def readCsvStep (acc : List Registro × List String) (r : Registro) :
    List Registro × List String :=
  match get_piso_for_room r.hab with
  | some p => (acc.1 ++ [{ r with piso := p }], setAdd acc.2 r.hab)
  | none => acc

/-- Function `read_csv_data` of `procesar_reservas.py`, starting after the
column-presence check: returns (registros, habitaciones_unicas). -/
def read_csv_data (rows : List Registro) : List Registro × List String :=
  rows.foldl readCsvStep ([], [])

/-- Insert a record into the ordered group map (Python `defaultdict(list)`
with insertion-ordered keys). -/
def groupAdd (acc : List ((String × String) × List Registro))
    (k : String × String) (r : Registro) :
    List ((String × String) × List Registro) :=
  if acc.any (fun e => e.1 == k) then
    acc.map (fun e => if e.1 == k then (e.1, e.2 ++ [r]) else e)
  else acc ++ [(k, [r])]

/-- Function `agrupar_por_habitacion` of `procesar_reservas.py`: group records by
the key `(PISO, HAB)`, preserving first-seen key order and input order
inside each group. -/
def agrupar_por_habitacion (rs : List Registro) :
    List ((String × String) × List Registro) :=
  rs.foldl (fun acc r => groupAdd acc (r.piso, r.hab) r) []

/-! ### Floor distribution (`procesar_reservas.py` lines 227–267) -/

/-- The anchor search: `iter_rows(min_col=2, max_col=2)` walks rows
`1..max_row`; the first row whose column-B value, as a trimmed string,
equals `str(room_number)` (the target is NOT trimmed) is the anchor. -/
def findAnchor (s : Sheet) (room : String) : Option Nat :=
  (List.range' 1 s.maxRow).find? (fun r => pyStrip (pyStr (s.cell r 2)) == room)

/-- The clearing loop `for col_to_clear in range(3, 13)` on one row. -/
def clearRow (s : Sheet) (r : Nat) : Sheet :=
  (List.range' 3 10).foldl (fun t c => setCell t r c none) s

/-- The ten data-cell writes of one distributed record (lines 249–259):
columns C..L get IN, OUT, PAX, N.º, ID, NOMBRE, EDAD, VOUCHER, MAP,
ESTADO — note column 6 takes the document number and column 7 the
document type. -/
def writeRegistro (s : Sheet) (r : Nat) (d : Registro) : Sheet :=
  let s := setCell s r 3 (some (CellVal.str d.cIn))
  let s := setCell s r 4 (some (CellVal.str d.cOut))
  let s := setCell s r 5 (some (CellVal.str d.pax))
  let s := setCell s r 6 (some (CellVal.str d.nroDoc))
  let s := setCell s r 7 (some (CellVal.str d.tipoDoc))
  let s := setCell s r 8 (some (CellVal.str d.nombre))
  let s := setCell s r 9 (some (CellVal.str d.edad))
  let s := setCell s r 10 (some (CellVal.str d.voucher))
  let s := setCell s r 11 (some (CellVal.str d.mapServ))
  setCell s r 12 (some (CellVal.str d.estado))

/-- The inner distribution loop (`for idx, data in enumerate(pax_list)`):
clear columns 3–12 of `current_row`, write the record there, advance
`current_row` by one.  The accumulator carries (sheet, current_row). -/
def writePaxList (s : Sheet) (r : Nat) (pax : List Registro) : Sheet :=
  (pax.foldl
    (fun (t : Sheet × Nat) d => (writeRegistro (clearRow t.1 t.2) t.2 d, t.2 + 1))
    (s, r)).1

/-- One room's distribution pass: find the anchor row; if found, write
the room's records on consecutive rows from the anchor; otherwise leave
the sheet untouched.  Returns (encontrado, sheet). -/
def distribute (s : Sheet) (room : String) (pax : List Registro) : Bool × Sheet :=
  match findAnchor s room with
  | none => (false, s)
  | some a => (true, writePaxList s a pax)

/-- The caller's loop over the grouped reservations of one sheet: a room
that is not found is reported and processing continues with the next. -/
def distributeGroups (s : Sheet) (gs : List (String × List Registro)) : Sheet :=
  gs.foldl (fun t g => (distribute t g.1 g.2).2) s

/-! ### Ledger append (`procesar_reservas.py` lines 188–219) -/

/-- The append-cursor search: `for row in range(2, max_row + 2)`, stop at
the first row whose column-A cell is `None`; if the loop never breaks the
cursor keeps its initial value 2. -/
def findFirstEmpty (s : Sheet) : Nat :=
  match (List.range' 2 s.maxRow).find? (fun r => (s.cell r 1).isNone) with
  | some r => r
  | none => 2

/-- The thirteen cell writes of one ledger row (lines 203–215):
columns A..M get HAB, IN, OUT, PAX, ID, N.º, NOMBRE, EDAD, VOUCHER,
MAP, ESTADO, BENEFICIO, SEDE. -/
def writeLedgerRow (s : Sheet) (r : Nat) (d : Registro) : Sheet :=
  let s := setCell s r 1 (some (CellVal.str d.hab))
  let s := setCell s r 2 (some (CellVal.str d.cIn))
  let s := setCell s r 3 (some (CellVal.str d.cOut))
  let s := setCell s r 4 (some (CellVal.str d.pax))
  let s := setCell s r 5 (some (CellVal.str d.tipoDoc))
  let s := setCell s r 6 (some (CellVal.str d.nroDoc))
  let s := setCell s r 7 (some (CellVal.str d.nombre))
  let s := setCell s r 8 (some (CellVal.str d.edad))
  let s := setCell s r 9 (some (CellVal.str d.voucher))
  let s := setCell s r 10 (some (CellVal.str d.mapServ))
  let s := setCell s r 11 (some (CellVal.str d.estado))
  let s := setCell s r 12 (some (CellVal.str d.beneficio))
  setCell s r 13 (some (CellVal.str d.sede))

/-- The ledger write loop (`for registro in registros: ...; row_idx += 1`):
one record per row, advancing one row each.  The accumulator carries
(sheet, row_idx). -/
def writeLedgerRows (s : Sheet) (r : Nat) (rs : List Registro) : Sheet :=
  (rs.foldl (fun (t : Sheet × Nat) d => (writeLedgerRow t.1 t.2 d, t.2 + 1)) (s, r)).1

/-- The whole import-to-Ingresos step: find the cursor, then write every
record on consecutive rows from there. -/
def appendLedger (s : Sheet) (rs : List Registro) : Sheet :=
  writeLedgerRows s (findFirstEmpty s) rs

/-! ### Summary block (`procesar_reservas.py` lines 274–290) -/

/-- Constant `fila_resumen` of `procesar_reservas.py`. -/
def fila_resumen : Nat := 278

/-- The summary write on PISO 1: title at H278, then three label/value
pairs at rows 280–282, columns H/I. -/
def write_resumen (s : Sheet) (total_pax total_habitaciones tot_map : Nat) : Sheet :=
  let s := setCell s fila_resumen 8 (some (CellVal.str "RESUMEN GENERAL"))
  let s := setCell s (fila_resumen + 2) 8 (some (CellVal.str "Total Pasajeros:"))
  let s := setCell s (fila_resumen + 2) 9 (some (CellVal.nat total_pax))
  let s := setCell s (fila_resumen + 3) 8 (some (CellVal.str "Total Habitaciones:"))
  let s := setCell s (fila_resumen + 3) 9 (some (CellVal.nat total_habitaciones))
  let s := setCell s (fila_resumen + 4) 8 (some (CellVal.str "Total Media Pensión:"))
  setCell s (fila_resumen + 4) 9 (some (CellVal.nat tot_map))

/-! ### Grid cleaner (`limpiar_grillas_pisos.py`) -/

/-- Constant `MAX_ROW_CLEAN` of `limpiar_grillas_pisos.py`. -/
def MAX_ROW_CLEAN : Nat := 500

/-- Constant `FILA_INICIO_DATOS` of `limpiar_grillas_pisos.py`. -/
def FILA_INICIO_DATOS : Nat := 2

/-- The body of the clearing loop: `if cell.value is not None:
cell.value = None` (writing through the existing cell keeps `max_row`). -/
def clearCell (s : Sheet) (r c : Nat) : Sheet :=
  if (s.cell r c).isSome then
    ⟨s.maxRow, fun r' c' => if r' = r ∧ c' = c then none else s.cell r' c'⟩
  else s

/-- The nested clearing loops over a row range and a column range
(rows `FILA_INICIO_DATOS..MAX_ROW_CLEAN`, columns `colLo..colLo+colN-1`). -/
def cleanPass (s : Sheet) (colLo colN : Nat) : Sheet :=
  (List.range' FILA_INICIO_DATOS (MAX_ROW_CLEAN - 1)).foldl
    (fun t r => (List.range' colLo colN).foldl (fun u c => clearCell u r c) t) s

/-- The floor-sheet pass of `limpiar_grillas`: `COLUMNAS_DE_DATOS =
range(3, 13)`, rows 2–500. -/
def limpiarPiso (s : Sheet) : Sheet := cleanPass s 3 10

/-- The Ingresos pass of `limpiar_grillas`: `range(1, 15)` (columns A–N),
rows 2–500. -/
def limpiarIngresos (s : Sheet) : Sheet := cleanPass s 1 14

/-! ### Entry points (exit codes) -/

/-- The fatal-failure cases of one import run. -/
inductive FatalFailure where
  | missingCsv
  | missingExcel
  | missingSheet
  | missingColumns
  | saveError
  deriving DecidableEq

/-- The boolean `procesar_reservas` returns: `true` on success, `false`
on every fatal failure path. -/
def procesar_reservas_ok (outcome : Option FatalFailure) : Bool :=
  outcome.isNone

/-- Exit status of `main` in `procesar_reservas.py`: `sys.exit(1)` when
the CSV argument is missing; otherwise `procesar_reservas` is called and
its boolean result is DISCARDED, so the interpreter exits 0. -/
def main_exit (argc : Nat) (_outcome : Option FatalFailure) : Nat :=
  if argc < 2 then 1 else 0

/-- Exit status of `main` in `procesar_reservas_old.py`:
`sys.exit(0 if success else 1)` after the argument check. -/
def main_exit_old (argc : Nat) (outcome : Option FatalFailure) : Nat :=
  if argc < 2 then 1
  else if procesar_reservas_ok outcome then 0 else 1

/-! ### Spec-side reference data and concrete test fixtures -/

/-- Modelled from the spec: the floor-sheet data-column table of §6, in
the spec's order — check-in, check-out, occupant count, document-number,
document-type, name, age, voucher, meal-plan, status — for columns C–L.
Used only to compare the distributor's writes against the spec's table. -/
def spec_floor_columns (d : Registro) : List (Option CellVal) :=
  [some (CellVal.str d.cIn), some (CellVal.str d.cOut), some (CellVal.str d.pax),
   some (CellVal.str d.nroDoc), some (CellVal.str d.tipoDoc), some (CellVal.str d.nombre),
   some (CellVal.str d.edad), some (CellVal.str d.voucher), some (CellVal.str d.mapServ),
   some (CellVal.str d.estado)]

/-- A concrete record for room 105 (occupant Ana, an All Inclusive stay). -/
def regA : Registro :=
  ⟨"105", "01/05", "03/05", "2", "DNI", "111", "Ana", "30", "V1", "All Inclusive",
   "OK", "PAQ", "SEDE1", ""⟩

/-- A concrete record whose room field is `" 105"`: same room up to
surrounding whitespace. -/
def regB : Registro :=
  ⟨" 105", "02/05", "04/05", "1", "DNI", "222", "Bea", "40", "V2", "Desayuno",
   "OK", "PAQ", "SEDE1", ""⟩

/-- A concrete record for room 230 (occupant Cleo). -/
def regC : Registro :=
  ⟨"230", "05/05", "06/05", "1", "LE", "333", "Cleo", "50", "V3", "Media Pensión",
   "OK", "PAQ", "SEDE1", ""⟩

/-- A small floor sheet: the anchor cell for room 105 sits at B3, one
other room label at B5, everything else empty. -/
def floorDemo : Sheet :=
  ⟨6, fun r c =>
    if r = 3 ∧ c = 2 then some (CellVal.str "105")
    else if r = 5 ∧ c = 2 then some (CellVal.str "200")
    else none⟩

/-- A log sheet with a gap: column A holds "a" on row 2 and "b" on row
4, row 3 is empty, so the append cursor lands on row 3 with a populated
anchor row below it. -/
def ledgerGap : Sheet :=
  ⟨4, fun r c =>
    if r = 2 ∧ c = 1 then some (CellVal.str "a")
    else if r = 4 ∧ c = 1 then some (CellVal.str "b")
    else none⟩

/-- A log sheet with no gap: column A holds "a" on row 2 only, so the
append cursor lands on row 3 and everything below is empty. -/
def ledgerOk : Sheet :=
  ⟨3, fun r c => if r = 2 ∧ c = 1 then some (CellVal.str "a") else none⟩

/-! ### Helper lemmas about the sheet operations -/

theorem setCell_cell (s : Sheet) (r c : Nat) (v : Option CellVal) (r' c' : Nat) :
    (setCell s r c v).cell r' c' = if r' = r ∧ c' = c then v else s.cell r' c' := rfl

theorem foldl_setNone_cell (cols : List Nat) (s : Sheet) (r r' c' : Nat) :
    ((cols.foldl (fun t c => setCell t r c none) s).cell r' c')
      = if r' = r ∧ c' ∈ cols then none else s.cell r' c' := by
  induction cols generalizing s with
  | nil => simp
  | cons c cs ih =>
      rw [List.foldl_cons, ih]
      by_cases h1 : r' = r <;> by_cases h2 : c' = c <;> by_cases h3 : c' ∈ cs <;>
        simp [setCell_cell, h1, h2, h3]

theorem clearRow_cell (s : Sheet) (r r' c' : Nat) :
    (clearRow s r).cell r' c'
      = if r' = r ∧ 3 ≤ c' ∧ c' ≤ 12 then none else s.cell r' c' := by
  have hm : (c' ∈ List.range' 3 10) ↔ (3 ≤ c' ∧ c' ≤ 12) := by
    rw [List.mem_range'_1]; omega
  rw [clearRow, foldl_setNone_cell]
  by_cases h1 : r' = r <;> by_cases h2 : 3 ≤ c' ∧ c' ≤ 12 <;>
    simp [h1, h2, hm]

theorem writeRegistro_row (s : Sheet) (r : Nat) (d : Registro) :
    (writeRegistro s r d).cell r 3 = some (CellVal.str d.cIn) ∧
    (writeRegistro s r d).cell r 4 = some (CellVal.str d.cOut) ∧
    (writeRegistro s r d).cell r 5 = some (CellVal.str d.pax) ∧
    (writeRegistro s r d).cell r 6 = some (CellVal.str d.nroDoc) ∧
    (writeRegistro s r d).cell r 7 = some (CellVal.str d.tipoDoc) ∧
    (writeRegistro s r d).cell r 8 = some (CellVal.str d.nombre) ∧
    (writeRegistro s r d).cell r 9 = some (CellVal.str d.edad) ∧
    (writeRegistro s r d).cell r 10 = some (CellVal.str d.voucher) ∧
    (writeRegistro s r d).cell r 11 = some (CellVal.str d.mapServ) ∧
    (writeRegistro s r d).cell r 12 = some (CellVal.str d.estado) := by
  refine ⟨?_, ?_, ?_, ?_, ?_, ?_, ?_, ?_, ?_, ?_⟩ <;> simp [writeRegistro, setCell]

theorem writeRegistro_other_row (s : Sheet) (r : Nat) (d : Registro) (r' c' : Nat)
    (h : r' ≠ r) : (writeRegistro s r d).cell r' c' = s.cell r' c' := by
  simp [writeRegistro, setCell, h]

theorem writePaxList_nil (s : Sheet) (r : Nat) : writePaxList s r [] = s := rfl

theorem writePaxList_cons (s : Sheet) (r : Nat) (d : Registro) (rest : List Registro) :
    writePaxList s r (d :: rest)
      = writePaxList (writeRegistro (clearRow s r) r d) (r + 1) rest := by
  simp only [writePaxList, List.foldl_cons]

theorem writePaxList_lower_rows :
    ∀ (pax : List Registro) (s : Sheet) (r r' c' : Nat), r' < r →
      (writePaxList s r pax).cell r' c' = s.cell r' c' := by
  intro pax
  induction pax with
  | nil => intro s r r' c' _; rfl
  | cons d rest ih =>
      intro s r r' c' h
      rw [writePaxList_cons, ih _ _ _ _ (by omega),
        writeRegistro_other_row _ _ _ _ _ (by omega), clearRow_cell]
      simp [show ¬(r' = r) from by omega]

theorem writePaxList_row_data (pax : List Registro) (s : Sheet) (r i : Nat)
    (hi : i < pax.length) :
    ((writePaxList s r pax).cell (r + i) 3 = some (CellVal.str (pax.get ⟨i, hi⟩).cIn)) ∧
    ((writePaxList s r pax).cell (r + i) 4 = some (CellVal.str (pax.get ⟨i, hi⟩).cOut)) ∧
    ((writePaxList s r pax).cell (r + i) 5 = some (CellVal.str (pax.get ⟨i, hi⟩).pax)) ∧
    ((writePaxList s r pax).cell (r + i) 6 = some (CellVal.str (pax.get ⟨i, hi⟩).nroDoc)) ∧
    ((writePaxList s r pax).cell (r + i) 7 = some (CellVal.str (pax.get ⟨i, hi⟩).tipoDoc)) ∧
    ((writePaxList s r pax).cell (r + i) 8 = some (CellVal.str (pax.get ⟨i, hi⟩).nombre)) ∧
    ((writePaxList s r pax).cell (r + i) 9 = some (CellVal.str (pax.get ⟨i, hi⟩).edad)) ∧
    ((writePaxList s r pax).cell (r + i) 10 = some (CellVal.str (pax.get ⟨i, hi⟩).voucher)) ∧
    ((writePaxList s r pax).cell (r + i) 11 = some (CellVal.str (pax.get ⟨i, hi⟩).mapServ)) ∧
    ((writePaxList s r pax).cell (r + i) 12 = some (CellVal.str (pax.get ⟨i, hi⟩).estado)) := by
  induction pax generalizing s r i with
  | nil => exact absurd hi (by simp)
  | cons d rest ih =>
      cases i with
      | zero =>
          have hfr : ∀ c',
              (writePaxList (writeRegistro (clearRow s r) r d) (r + 1) rest).cell r c'
                = (writeRegistro (clearRow s r) r d).cell r c' :=
            fun c' => writePaxList_lower_rows rest _ (r + 1) r c' (Nat.lt_succ_self r)
          have hw := writeRegistro_row (clearRow s r) r d
          simp only [writePaxList_cons, Nat.add_zero, hfr]
          simpa using hw
      | succ j =>
          have hj : j < rest.length := by
            simpa using Nat.lt_of_succ_lt_succ hi
          have harith : r + (j + 1) = (r + 1) + j := by omega
          have := ih (writeRegistro (clearRow s r) r d) (r + 1) j hj
          simp only [writePaxList_cons, harith]
          simpa using this

theorem writeLedgerRows_cons (s : Sheet) (r : Nat) (d : Registro) (rest : List Registro) :
    writeLedgerRows s r (d :: rest) = writeLedgerRows (writeLedgerRow s r d) (r + 1) rest := by
  simp only [writeLedgerRows, List.foldl_cons]

theorem writeLedgerRow_other_row (s : Sheet) (r : Nat) (d : Registro) (r' c' : Nat)
    (h : r' ≠ r) : (writeLedgerRow s r d).cell r' c' = s.cell r' c' := by
  simp [writeLedgerRow, setCell, h]

theorem writeLedgerRow_anchor (s : Sheet) (r : Nat) (d : Registro) :
    (writeLedgerRow s r d).cell r 1 = some (CellVal.str d.hab) := by
  simp [writeLedgerRow, setCell]

theorem writeLedgerRows_frame :
    ∀ (rs : List Registro) (s : Sheet) (r r' c' : Nat), r' < r ∨ r + rs.length ≤ r' →
      (writeLedgerRows s r rs).cell r' c' = s.cell r' c' := by
  intro rs
  induction rs with
  | nil => intro s r r' c' _; rfl
  | cons d rest ih =>
      intro s r r' c' h
      have hlen : (d :: rest).length = rest.length + 1 := by simp
      rw [hlen] at h
      rw [writeLedgerRows_cons, ih _ _ _ _ (by omega),
        writeLedgerRow_other_row _ _ _ _ _ (by omega)]

theorem writeLedgerRows_anchor (rs : List Registro) (s : Sheet) (r i : Nat)
    (hi : i < rs.length) :
    (writeLedgerRows s r rs).cell (r + i) 1 = some (CellVal.str (rs.get ⟨i, hi⟩).hab) := by
  induction rs generalizing s r i with
  | nil => exact absurd hi (by simp)
  | cons d rest ih =>
      cases i with
      | zero =>
          rw [writeLedgerRows_cons]
          simp only [Nat.add_zero]
          rw [writeLedgerRows_frame rest _ (r + 1) r 1 (Or.inl (Nat.lt_succ_self r)),
            writeLedgerRow_anchor]
          rfl
      | succ j =>
          have hj : j < rest.length := by
            simpa using Nat.lt_of_succ_lt_succ hi
          have harith : r + (j + 1) = (r + 1) + j := by omega
          have := ih (writeLedgerRow s r d) (r + 1) j hj
          rw [writeLedgerRows_cons, harith, this]
          rfl

theorem clearCell_cell (s : Sheet) (r c r' c' : Nat) :
    (clearCell s r c).cell r' c' = if r' = r ∧ c' = c then none else s.cell r' c' := by
  rcases o : s.cell r c with _ | v
  · simp only [clearCell, o, Option.isSome_none, Bool.false_eq_true, if_false]
    split_ifs with hc
    · obtain ⟨rfl, rfl⟩ := hc
      exact o
    · rfl
  · simp only [clearCell, o, Option.isSome_some, if_true]

theorem foldl_clearCell_cols (cols : List Nat) (s : Sheet) (r r' c' : Nat) :
    ((cols.foldl (fun u c => clearCell u r c) s).cell r' c')
      = if r' = r ∧ c' ∈ cols then none else s.cell r' c' := by
  induction cols generalizing s with
  | nil => simp
  | cons c cs ih =>
      rw [List.foldl_cons, ih]
      by_cases h1 : r' = r <;> by_cases h2 : c' = c <;> by_cases h3 : c' ∈ cs <;>
        simp [clearCell_cell, h1, h2, h3]

theorem foldl_clean_rows (rows cols : List Nat) (s : Sheet) (r' c' : Nat) :
    ((rows.foldl (fun t r => cols.foldl (fun u c => clearCell u r c) t) s).cell r' c')
      = if r' ∈ rows ∧ c' ∈ cols then none else s.cell r' c' := by
  induction rows generalizing s with
  | nil => simp
  | cons r rrest ih =>
      rw [List.foldl_cons, ih, foldl_clearCell_cols]
      by_cases h1 : r' = r <;> by_cases h2 : r' ∈ rrest <;> by_cases h3 : c' ∈ cols <;>
        simp [h1, h2, h3]

theorem cleanPass_cell (s : Sheet) (colLo colN r' c' : Nat) :
    (cleanPass s colLo colN).cell r' c'
      = if (2 ≤ r' ∧ r' ≤ 500) ∧ (colLo ≤ c' ∧ c' < colLo + colN) then none
        else s.cell r' c' := by
  rw [cleanPass, foldl_clean_rows]
  have hr : (r' ∈ List.range' FILA_INICIO_DATOS (MAX_ROW_CLEAN - 1))
      ↔ (2 ≤ r' ∧ r' ≤ 500) := by
    rw [List.mem_range'_1]; simp [FILA_INICIO_DATOS, MAX_ROW_CLEAN]; omega
  have hc : (c' ∈ List.range' colLo colN) ↔ (colLo ≤ c' ∧ c' < colLo + colN) := by
    rw [List.mem_range'_1]
  simp only [hr, hc]

theorem range'_find?_eq_some {p : Nat → Bool} :
    ∀ (n st a : Nat), st ≤ a → a < st + n → p a = true →
      (∀ b, st ≤ b → b < a → p b = false) →
      (List.range' st n).find? p = some a := by
  intro n
  induction n with
  | zero => intro st a h1 h2 _ _; omega
  | succ m ih =>
      intro st a h1 h2 hp hf
      rw [List.range'_succ]
      by_cases hst : st = a
      · subst hst
        rw [List.find?_cons_of_pos _ hp]
      · have hlt : st < a := by omega
        rw [List.find?_cons_of_neg _ (by simp [hf st (Nat.le_refl st) hlt]),
          ih (st + 1) a (by omega) (by omega) hp (fun b hb1 hb2 => hf b (by omega) hb2)]

/-! ### Helper lemmas about `read_csv_data` and the aggregates -/

theorem read_fold_fst (rows : List Registro) :
    ∀ (a : List Registro) (b : List String),
      (rows.foldl readCsvStep (a, b)).1
        = a ++ rows.filterMap
            (fun r => (get_piso_for_room r.hab).map (fun p => { r with piso := p })) := by
  induction rows with
  | nil => intro a b; simp
  | cons r rest ih =>
      intro a b
      rw [List.foldl_cons, List.filterMap_cons]
      cases h : get_piso_for_room r.hab with
      | none => simp [readCsvStep, h, ih]
      | some p => simp [readCsvStep, h, ih]

theorem read_fold_snd (rows : List Registro) :
    ∀ (a : List Registro) (b : List String),
      (rows.foldl readCsvStep (a, b)).2
        = ((rows.filter (fun r => (get_piso_for_room r.hab).isSome)).map
            (fun r => r.hab)).foldl setAdd b := by
  induction rows with
  | nil => intro a b; simp
  | cons r rest ih =>
      intro a b
      rw [List.foldl_cons, List.filter_cons]
      cases h : get_piso_for_room r.hab with
      | none => simp [readCsvStep, h, ih]
      | some p => simp [readCsvStep, h, ih]

theorem length_filterMap_piso (rows : List Registro) :
    (rows.filterMap
        (fun r => (get_piso_for_room r.hab).map (fun p => { r with piso := p }))).length
      = rows.countP (fun r => (get_piso_for_room r.hab).isSome) := by
  induction rows with
  | nil => rfl
  | cons r rest ih =>
      rw [List.filterMap_cons, List.countP_cons]
      cases h : get_piso_for_room r.hab with
      | none => simp [h, ih]
      | some p => simp [h, ih]

theorem countP_filterMap_piso (rows : List Registro) :
    (rows.filterMap
        (fun r => (get_piso_for_room r.hab).map (fun p => { r with piso := p }))).countP
          esMapRecord
      = (rows.filter (fun r => (get_piso_for_room r.hab).isSome)).countP esMapRecord := by
  induction rows with
  | nil => rfl
  | cons r rest ih =>
      rw [List.filterMap_cons, List.filter_cons]
      cases h : get_piso_for_room r.hab with
      | none => simp [h, ih]
      | some p =>
          have hmap : esMapRecord { r with piso := p } = esMapRecord r := rfl
          simp [h, ih, List.countP_cons, hmap]

theorem mem_foldl_setAdd (l : List String) :
    ∀ (b : List String) (y : String), y ∈ l.foldl setAdd b ↔ y ∈ b ∨ y ∈ l := by
  induction l with
  | nil => intro b y; simp
  | cons x t ih =>
      intro b y
      rw [List.foldl_cons, ih]
      unfold setAdd
      by_cases hx : x ∈ b
      · simp only [hx, if_true, List.mem_cons]
        constructor
        · rintro (h | h)
          · exact Or.inl h
          · exact Or.inr (Or.inr h)
        · rintro (h | rfl | h)
          · exact Or.inl h
          · exact Or.inl hx
          · exact Or.inr h
      · simp only [hx, if_false, List.mem_append, List.mem_cons, List.mem_singleton]
        tauto

theorem nodup_foldl_setAdd (l : List String) :
    ∀ (b : List String), b.Nodup → (l.foldl setAdd b).Nodup := by
  induction l with
  | nil => intro b hb; exact hb
  | cons x t ih =>
      intro b hb
      rw [List.foldl_cons]
      apply ih
      unfold setAdd
      by_cases hx : x ∈ b
      · simpa [hx] using hb
      · simp [hx, List.nodup_append, hb]

theorem length_foldl_setAdd_nil (l : List String) :
    (l.foldl setAdd []).length = l.toFinset.card := by
  have hnd : (l.foldl setAdd []).Nodup := nodup_foldl_setAdd l [] (by simp)
  have hfin : (l.foldl setAdd []).toFinset = l.toFinset := by
    apply Finset.ext
    intro y
    simp [List.mem_toFinset, mem_foldl_setAdd]
  rw [← List.toFinset_card_of_nodup hnd, hfin]

/-! ### Claim theorems -/

/-- C4: for every input string `r`, if `r` trimmed parses as an integer
inside a configured floor range, `get_piso_for_room` returns the floor of
the first declared range containing it; if the integer lies outside all
ranges, or the string does not parse, it returns `none`. -/
theorem c4_resolve_ranges (r : String) :
    (pyInt r = none → get_piso_for_room r = none) ∧
    (∀ n : Int, pyInt r = some n →
      ((101 ≤ n ∧ n ≤ 121) → get_piso_for_room r = some "PISO 1") ∧
      ((222 ≤ n ∧ n ≤ 242) → get_piso_for_room r = some "PISO 2") ∧
      ((343 ≤ n ∧ n ≤ 353) → get_piso_for_room r = some "PISO 3") ∧
      ((¬(101 ≤ n ∧ n ≤ 121) ∧ ¬(222 ≤ n ∧ n ≤ 242) ∧ ¬(343 ≤ n ∧ n ≤ 353)) →
        get_piso_for_room r = none)) := by
  constructor
  · intro h
    simp [get_piso_for_room, h]
  · intro n hn
    refine ⟨?_, ?_, ?_, ?_⟩
    · rintro ⟨h1, h2⟩
      simp [get_piso_for_room, hn, PISO_RANGES, sheetNameOf, PISO_SHEET_NAMES, h1, h2]
    · rintro ⟨h1, h2⟩
      simp [get_piso_for_room, hn, PISO_RANGES, sheetNameOf, PISO_SHEET_NAMES, h1, h2,
        show ¬(n ≤ (121 : Int)) from by omega]
    · rintro ⟨h1, h2⟩
      simp [get_piso_for_room, hn, PISO_RANGES, sheetNameOf, PISO_SHEET_NAMES, h1, h2,
        show ¬(n ≤ (121 : Int)) from by omega, show ¬(n ≤ (242 : Int)) from by omega]
    · rintro ⟨h1, h2, h3⟩
      have e : PISO_RANGES.find?
          (fun p => decide (p.2.1 ≤ n) && decide (n ≤ p.2.2)) = none := by
        rw [List.find?_eq_none]
        intro x hx
        simp only [PISO_RANGES, List.mem_cons, List.not_mem_nil, or_false] at hx
        rcases hx with rfl | rfl | rfl <;> simp <;> omega
      simp [get_piso_for_room, hn, e]

/-- C4 witness: a concrete room string with surrounding whitespace that
parses to 222 and resolves to the second floor sheet. -/
theorem c4_resolve_ranges_witness :
    get_piso_for_room "  222 " = some "PISO 2" ∧ get_piso_for_room "999" = none := by
  have h1 := ((c4_resolve_ranges "  222 ").2 222 (by decide)).2.1 (by decide)
  have h2 := ((c4_resolve_ranges "999").2 999 (by decide)).2.2.2 (by decide)
  exact ⟨h1, h2⟩

/-- C3: over any CSV row list, the computed aggregates satisfy: the
occupant total is the number of accepted records (records whose room
resolves to a floor), independent of the PAX field; the unique-room
total is the number of distinct room strings among accepted records;
and the meal-plan total counts accepted records whose upper-cased
meal-plan field contains one of the fixed keywords as a substring. -/
theorem c3_aggregates (rows : List Registro) :
    (read_csv_data rows).1.length
      = rows.countP (fun r => (get_piso_for_room r.hab).isSome) ∧
    (read_csv_data rows).2.length
      = ((rows.filter (fun r => (get_piso_for_room r.hab).isSome)).map
          (fun r => r.hab)).toFinset.card ∧
    total_map (read_csv_data rows).1
      = (rows.filter (fun r => (get_piso_for_room r.hab).isSome)).countP esMapRecord := by
  refine ⟨?_, ?_, ?_⟩
  · rw [read_csv_data, read_fold_fst]
    simp [length_filterMap_piso]
  · rw [read_csv_data, read_fold_snd, length_foldl_setAdd_nil]
  · rw [read_csv_data, total_map, read_fold_fst]
    simp [countP_filterMap_piso]

/-- C2: one distributed reservation writes columns C–L in exactly the
spec's order — check-in, check-out, occupant count, document-number,
document-type, name, age, voucher, meal-plan, status — so column F takes
the document number and column G the document type. -/
theorem c2_column_order (s : Sheet) (r : Nat) (d : Registro) :
    (List.range' 3 10).map (fun c => (writeRegistro s r d).cell r c)
      = spec_floor_columns d ∧
    (writeRegistro s r d).cell r 6 = some (CellVal.str d.nroDoc) ∧
    (writeRegistro s r d).cell r 7 = some (CellVal.str d.tipoDoc) := by
  obtain ⟨h3, h4, h5, h6, h7, h8, h9, h10, h11, h12⟩ := writeRegistro_row s r d
  refine ⟨?_, h6, h7⟩
  have hr : List.range' 3 10 = [3, 4, 5, 6, 7, 8, 9, 10, 11, 12] := rfl
  rw [hr]
  simp [spec_floor_columns, h3, h4, h5, h6, h7, h8, h9, h10, h11, h12]

/-- C8: the grid cleaner leaves row 1 and every cell outside the
configured window unchanged and empties exactly the window cells:
columns C–L on floor sheets, columns A–N on the log sheet, rows 2–500
in both. -/
theorem c8_cleaner_window (s : Sheet) (r c : Nat) :
    (limpiarPiso s).cell 1 c = s.cell 1 c ∧
    (limpiarIngresos s).cell 1 c = s.cell 1 c ∧
    (limpiarPiso s).cell r c
      = (if 2 ≤ r ∧ r ≤ 500 ∧ 3 ≤ c ∧ c ≤ 12 then none else s.cell r c) ∧
    (limpiarIngresos s).cell r c
      = (if 2 ≤ r ∧ r ≤ 500 ∧ 1 ≤ c ∧ c ≤ 14 then none else s.cell r c) := by
  refine ⟨?_, ?_, ?_, ?_⟩
  · rw [limpiarPiso, cleanPass_cell]
    simp
  · rw [limpiarIngresos, cleanPass_cell]
    simp
  · rw [limpiarPiso, cleanPass_cell]
    split_ifs <;> first | rfl | omega
  · rw [limpiarIngresos, cleanPass_cell]
    split_ifs <;> first | rfl | omega

/-- Characterization of one summary write: the seven fixed cells take
the title, labels and aggregate values; everything else is untouched. -/
theorem write_resumen_cell (s : Sheet) (a b m r c : Nat) :
    (write_resumen s a b m).cell r c =
      if r = 282 ∧ c = 9 then some (CellVal.nat m)
      else if r = 282 ∧ c = 8 then some (CellVal.str "Total Media Pensión:")
      else if r = 281 ∧ c = 9 then some (CellVal.nat b)
      else if r = 281 ∧ c = 8 then some (CellVal.str "Total Habitaciones:")
      else if r = 280 ∧ c = 9 then some (CellVal.nat a)
      else if r = 280 ∧ c = 8 then some (CellVal.str "Total Pasajeros:")
      else if r = 278 ∧ c = 8 then some (CellVal.str "RESUMEN GENERAL")
      else s.cell r c := by
  simp only [write_resumen, fila_resumen, setCell_cell]

/-- C9: the summary write is idempotent — writing the same aggregate
twice leaves exactly the cells of a single write — because it always
overwrites the same seven fixed cells with values determined only by
the aggregate. -/
theorem c9_summary_idempotent (s : Sheet) (a b m r c : Nat) :
    (write_resumen (write_resumen s a b m) a b m).cell r c
      = (write_resumen s a b m).cell r c ∧
    (write_resumen s a b m).cell 278 8 = some (CellVal.str "RESUMEN GENERAL") ∧
    (write_resumen s a b m).cell 280 8 = some (CellVal.str "Total Pasajeros:") ∧
    (write_resumen s a b m).cell 280 9 = some (CellVal.nat a) ∧
    (write_resumen s a b m).cell 281 8 = some (CellVal.str "Total Habitaciones:") ∧
    (write_resumen s a b m).cell 281 9 = some (CellVal.nat b) ∧
    (write_resumen s a b m).cell 282 8 = some (CellVal.str "Total Media Pensión:") ∧
    (write_resumen s a b m).cell 282 9 = some (CellVal.nat m) := by
  refine ⟨?_, ?_, ?_, ?_, ?_, ?_, ?_, ?_⟩
  · rw [write_resumen_cell, write_resumen_cell]
    split_ifs <;> rfl
  all_goals rw [write_resumen_cell]
  all_goals norm_num

/-- C6: the current import entry point exits 0 even on a fatal failure
(here: missing input CSV), although `procesar_reservas` reports the
failure with `False`; the previous entry point propagated that flag and
exited 1.  Only the missing-argument case exits non-zero today. -/
theorem c6_exit_code_on_failure :
    main_exit 2 (some FatalFailure.missingCsv) = 0 ∧
    procesar_reservas_ok (some FatalFailure.missingCsv) = false ∧
    main_exit_old 2 (some FatalFailure.missingCsv) = 1 ∧
    main_exit 1 none = 1 ∧
    main_exit_old 2 none = 0 := by
  decide

/-- C1: when row `a` is the first row from the top whose column-B cell,
as a trimmed string, equals the target room, `distribute` reports the
room found and writes the reservations in input order into consecutive
rows from the anchor: for each `i`, row `a + i` carries the ten data
columns (3–12) of the `i`-th reservation — the columns are cleared and
then rewritten, so they hold exactly the new record's values. -/
theorem c1_distribute_consecutive (s : Sheet) (room : String) (pax : List Registro)
    (a : Nat) (h1 : 1 ≤ a) (h2 : a ≤ s.maxRow)
    (hmatch : pyStrip (pyStr (s.cell a 2)) = room)
    (hfirst : ∀ b, 1 ≤ b → b < a → pyStrip (pyStr (s.cell b 2)) ≠ room)
    (_hne : pax ≠ []) :
    (distribute s room pax).1 = true ∧
    ∀ i (hi : i < pax.length),
      ((distribute s room pax).2.cell (a + i) 3 = some (CellVal.str (pax.get ⟨i, hi⟩).cIn)) ∧
      ((distribute s room pax).2.cell (a + i) 4 = some (CellVal.str (pax.get ⟨i, hi⟩).cOut)) ∧
      ((distribute s room pax).2.cell (a + i) 5 = some (CellVal.str (pax.get ⟨i, hi⟩).pax)) ∧
      ((distribute s room pax).2.cell (a + i) 6 = some (CellVal.str (pax.get ⟨i, hi⟩).nroDoc)) ∧
      ((distribute s room pax).2.cell (a + i) 7 = some (CellVal.str (pax.get ⟨i, hi⟩).tipoDoc)) ∧
      ((distribute s room pax).2.cell (a + i) 8 = some (CellVal.str (pax.get ⟨i, hi⟩).nombre)) ∧
      ((distribute s room pax).2.cell (a + i) 9 = some (CellVal.str (pax.get ⟨i, hi⟩).edad)) ∧
      ((distribute s room pax).2.cell (a + i) 10 = some (CellVal.str (pax.get ⟨i, hi⟩).voucher)) ∧
      ((distribute s room pax).2.cell (a + i) 11 = some (CellVal.str (pax.get ⟨i, hi⟩).mapServ)) ∧
      ((distribute s room pax).2.cell (a + i) 12 = some (CellVal.str (pax.get ⟨i, hi⟩).estado)) := by
  have hpa : (fun r => pyStrip (pyStr (s.cell r 2)) == room) a = true := by
    simp [hmatch]
  have hpf : ∀ b, 1 ≤ b → b < a →
      (fun r => pyStrip (pyStr (s.cell r 2)) == room) b = false := by
    intro b hb1 hb2
    simp [hfirst b hb1 hb2]
  have ha : findAnchor s room = some a := by
    rw [findAnchor]
    exact range'_find?_eq_some s.maxRow 1 a h1 (by omega) hpa hpf
  have hd2 : (distribute s room pax).2 = writePaxList s a pax := by
    simp [distribute, ha]
  refine ⟨by simp [distribute, ha], ?_⟩
  intro i hi
  rw [hd2]
  exact writePaxList_row_data pax s a i hi

/-- C1 witness: on the demo floor sheet the anchor for room 105 is row
3; distributing Ana then Bea puts Ana's name on row 3 and Bea's on
row 4. -/
theorem c1_distribute_consecutive_witness :
    (distribute floorDemo "105" [regA, regB]).1 = true ∧
    (distribute floorDemo "105" [regA, regB]).2.cell 3 8 = some (CellVal.str "Ana") ∧
    (distribute floorDemo "105" [regA, regB]).2.cell 4 8 = some (CellVal.str "Bea") := by
  have h := c1_distribute_consecutive floorDemo "105" [regA, regB] 3 (by decide) (by decide)
    (by decide)
    (by intro b hb1 hb2
        interval_cases b <;> decide)
    (by decide)
  refine ⟨h.1, ?_, ?_⟩
  · have := (h.2 0 (by decide)).2.2.2.2.2.1
    simpa using this
  · have := (h.2 1 (by decide)).2.2.2.2.2.1
    simpa using this

/-- C7: a room whose identifier matches no row's trimmed column-B cell
is reported not found, the sheet is left untouched for that room, and
the caller's loop continues with the remaining rooms as if the group
were absent. -/
theorem c7_room_not_found (s : Sheet) (room : String) (pax : List Registro)
    (h : ∀ b, 1 ≤ b → b ≤ s.maxRow → pyStrip (pyStr (s.cell b 2)) ≠ room) :
    distribute s room pax = (false, s) ∧
    (∀ gs, distributeGroups s ((room, pax) :: gs) = distributeGroups s gs) := by
  have hnone : findAnchor s room = none := by
    rw [findAnchor, List.find?_eq_none]
    intro x hx
    rw [List.mem_range'_1] at hx
    simp [h x hx.1 (by omega)]
  constructor
  · simp [distribute, hnone]
  · intro gs
    simp [distributeGroups, distribute, hnone]

/-- C7 witness: room 999 appears nowhere on the demo floor sheet; the
distribution pass reports it missing, changes nothing, and the next
group is processed exactly as if 999 had not been requested. -/
theorem c7_room_not_found_witness :
    distribute floorDemo "999" [regC] = (false, floorDemo) ∧
    distributeGroups floorDemo [("999", [regC]), ("105", [regA])]
      = distributeGroups floorDemo [("105", [regA])] := by
  have h := c7_room_not_found floorDemo "999" [regC]
    (by intro b hb1 hb2
        have hb6 : b ≤ 6 := hb2
        interval_cases b <;> decide)
  exact ⟨h.1, h.2 [("105", [regA])]⟩

/-- C5 counterexample: on a log sheet whose column A is populated on
rows 2 and 4 but empty on row 3, the cursor lands on row 3, and
appending two records overwrites the populated anchor cell at row 4
with the second record's room string — refuting "never overwrites a
non-empty anchor cell ... for every sheet state, including sheets where
populated anchor rows exist below row R". -/
theorem c5_counterexample :
    findFirstEmpty ledgerGap = 3 ∧
    ledgerGap.cell 4 1 = some (CellVal.str "b") ∧
    (appendLedger ledgerGap [regA, regB]).cell 4 1 = some (CellVal.str " 105") ∧
    CellVal.str " 105" ≠ CellVal.str "b" := by
  decide

/-- C5 (amended): with R the append cursor (the first row of the
scanned window whose column-A cell is empty, 2 if the scan finds none),
appending N records writes them into rows R..R+N-1 in input order and
touches no row outside that span; when additionally every column-A cell
in rows R..R+N is empty beforehand — no populated anchor row inside the
written span — no non-empty anchor cell is overwritten and row R+N's
anchor cell is still empty afterwards. -/
theorem c5_append_no_overwrite (s : Sheet) (rs : List Registro) (R : Nat)
    (hR : findFirstEmpty s = R)
    (hEmpty : ∀ i, i ≤ rs.length → s.cell (R + i) 1 = none) :
    (∀ i (hi : i < rs.length),
      (appendLedger s rs).cell (R + i) 1 = some (CellVal.str (rs.get ⟨i, hi⟩).hab)) ∧
    (appendLedger s rs).cell (R + rs.length) 1 = none ∧
    (∀ r c, r < R ∨ R + rs.length ≤ r → (appendLedger s rs).cell r c = s.cell r c) := by
  have hA : appendLedger s rs = writeLedgerRows s R rs := by
    rw [appendLedger, hR]
  refine ⟨?_, ?_, ?_⟩
  · intro i hi
    rw [hA]
    exact writeLedgerRows_anchor rs s R i hi
  · rw [hA, writeLedgerRows_frame rs s R (R + rs.length) 1 (Or.inr (Nat.le_refl _))]
    exact hEmpty rs.length (Nat.le_refl _)
  · intro r c hr
    rw [hA]
    exact writeLedgerRows_frame rs s R r c hr

/-- C5 witness: on the gap-free demo ledger the cursor is row 3; two
appended records land on rows 3 and 4 in order, row 5 stays empty and
row 2 keeps its anchor. -/
theorem c5_append_no_overwrite_witness :
    (appendLedger ledgerOk [regA, regB]).cell 3 1 = some (CellVal.str "105") ∧
    (appendLedger ledgerOk [regA, regB]).cell 4 1 = some (CellVal.str " 105") ∧
    (appendLedger ledgerOk [regA, regB]).cell 5 1 = none ∧
    (appendLedger ledgerOk [regA, regB]).cell 2 1 = some (CellVal.str "a") := by
  have h := c5_append_no_overwrite ledgerOk [regA, regB] 3 (by decide)
    (by intro i hi
        have hi2 : i ≤ 2 := hi
        interval_cases i <;> decide)
  refine ⟨?_, ?_, ?_, ?_⟩
  · simpa using h.1 0 (by decide)
  · simpa using h.1 1 (by decide)
  · simpa using h.2.1
  · simpa using h.2.2 2 1 (by omega)

/-- C10 counterexample: with the anchor cell "105" on row 3, the
whitespace-variant room " 105" matches NO anchor row (the code trims
only the sheet cell, never the target), so after the "105" group is
written the " 105" group is reported not found and row 3 still holds
Ana's data — the overwrite the claim asserts does not happen. -/
theorem c10_counterexample :
    findAnchor floorDemo "105" = some 3 ∧
    findAnchor floorDemo " 105" = none ∧
    (distribute (distribute floorDemo "105" [regA]).2 " 105" [regB]).1 = false ∧
    (distribute (distribute floorDemo "105" [regA]).2 " 105" [regB]).2.cell 3 8
      = some (CellVal.str "Ana") := by
  decide

/-- C10 (amended): two accepted rows whose room fields differ only by
surrounding whitespace ("105" and " 105") are counted as two distinct
rooms and grouped under two distinct (floor, room) keys although both
resolve to floor "PISO 1"; but during distribution the comparison trims
only the sheet cell, so on any sheet none of whose trimmed column-B
cells equals " 105" (trimming never yields a leading space) the " 105"
group finds no anchor, is skipped with found=false, and overwrites
nothing. -/
theorem c10_whitespace_rooms (r1 r2 : Registro) (h1 : r1.hab = "105")
    (h2 : r2.hab = " 105") (s : Sheet)
    (hs : ∀ b ∈ List.range' 1 s.maxRow, pyStrip (pyStr (s.cell b 2)) ≠ " 105") :
    (read_csv_data [r1, r2]).2 = ["105", " 105"] ∧
    (agrupar_por_habitacion (read_csv_data [r1, r2]).1).map (fun e => e.1)
      = [("PISO 1", "105"), ("PISO 1", " 105")] ∧
    get_piso_for_room r1.hab = some "PISO 1" ∧
    get_piso_for_room r2.hab = some "PISO 1" ∧
    (∀ pax, distribute s " 105" pax = (false, s)) := by
  have e1 : get_piso_for_room "105" = some "PISO 1" := by decide
  have e2 : get_piso_for_room " 105" = some "PISO 1" := by decide
  have hread : read_csv_data [r1, r2]
      = ([{ r1 with piso := "PISO 1" }, { r2 with piso := "PISO 1" }], ["105", " 105"]) := by
    simp [read_csv_data, readCsvStep, h1, h2, e1, e2, setAdd]
  refine ⟨by rw [hread], ?_, by rw [h1]; exact e1, by rw [h2]; exact e2, ?_⟩
  · rw [hread]
    simp [agrupar_por_habitacion, groupAdd, h1, h2]
  · intro pax
    have hnone : findAnchor s " 105" = none := by
      rw [findAnchor, List.find?_eq_none]
      intro x hx
      simp [hs x hx]
    simp [distribute, hnone]

/-- C10 witness: the concrete records Ana ("105") and Bea (" 105") on
the demo floor sheet. -/
theorem c10_whitespace_rooms_witness :
    (read_csv_data [regA, regB]).2.length = 2 ∧
    distribute floorDemo " 105" [regB] = (false, floorDemo) := by
  have h := c10_whitespace_rooms regA regB (by decide) (by decide) floorDemo (by decide)
  exact ⟨by rw [h.1]; rfl, h.2.2.2.2 [regB]⟩

end Recepcion
